import Mathlib

/-!
Verification of the two backend variants of the Focused-game repository.

Variant A (`src/app.py`): Flask + SQLAlchemy, a `User` table
`(id, username UNIQUE, password_hash, game_data TEXT)`, server-side
session carrying `user_id`, salted password hashes.

Variant B (`src/server.py`): Flask, a flat JSON file `users.json`
mapping username to `{password, game_data}`, plaintext passwords,
no session.

JSON documents are modelled by the inductive type `Json`.  The source
stores game state as a serialized JSON string (`json.dumps`) and reads it
back with `json.loads`; since those two external-library functions are
mutually inverse on JSON-serializable values, the stored TEXT column /
file field is modelled by the `Json` value it deserializes to.
The external `werkzeug.security` pair
`generate_password_hash` / `check_password_hash` is modelled by an
injective tagging whose check succeeds exactly when the password matches
the one originally hashed, which is the documented contract of the
salted-hash pair.
-/

/-- JSON values (numbers restricted to integers, which covers every
literal the source writes). -/
inductive Json where
  | null : Json
  | bool (b : Bool) : Json
  | num (n : Int) : Json
  | str (s : String) : Json
  | arr (elems : List Json) : Json
  | obj (fields : List (String × Json)) : Json
deriving Repr

/-- HTTP JSON-envelope response: status code, `success` flag, optional
`message` and optional `data` field, as produced by `jsonify` in the
source (status defaults to 200 when not given). -/
structure Response where
  status : Nat
  success : Bool
  message : Option String
  data : Option Json
deriving Repr

namespace App
/- ===== Variant A : src/app.py ===== -/

/-- Row of the `User` table (src/app.py lines 14-18).  `game_data` is a
TEXT column holding a JSON string, modelled by its parsed `Json` value. -/
structure User where
  id : Nat
  username : String
  password_hash : String
  game_data : Json
deriving Repr

/-- Modelled external library (werkzeug): salted password hashing.
The concrete tagging is irrelevant; only the contract
`check_password_hash (generate_password_hash p) q = (p = q)` is used. -/
def generate_password_hash (password : String) : String :=
  "pbkdf2:sha256$" ++ password

/-- Modelled external library (werkzeug): hash verification. -/
def check_password_hash (hash password : String) : Bool :=
  hash == "pbkdf2:sha256$" ++ password

/-- Server state of Variant A: the `User` table, the autoincrement
primary-key counter, and the session's `user_id` entry (none when
`'user_id' not in session`). -/
structure StateA where
  users : List User
  nextId : Nat
  session_user_id : Option Nat
deriving Repr

/-- `User.query.filter_by(username=username).first()` (src/app.py line 57). -/
def filterByUsername (users : List User) (username : String) : Option User :=
  users.find? (fun u => u.username == username)

/-- `db.session.get(User, uid)` — primary-key lookup (src/app.py line 86). -/
def getById (users : List User) (uid : Nat) : Option User :=
  users.find? (fun u => u.id == uid)

/-- The default game state written at signup (src/app.py line 74):
one farm plot entry. -/
def defaultPlot : Json :=
  .obj [("crop", .null), ("plantedAt", .num 0), ("progress", .num 0),
        ("ready", .bool false)]

/-- The default game state written at signup (src/app.py line 74). -/
def defaultGameData : Json :=
  .obj [("coins", .num 0), ("totalSeconds", .num 0),
        ("inventory", .obj [("wheat", .num 0), ("carrot", .num 0),
                            ("egg", .num 0), ("milk", .num 0)]),
        ("plots", .arr (List.replicate 6 defaultPlot)),
        ("animals", .arr []),
        ("stats", .obj [("planted", .num 0), ("harvested", .num 0),
                        ("sessions", .num 0), ("tasksCompleted", .num 0)]),
        ("tasks", .arr []),
        ("currentTaskId", .null),
        ("avatar", .str "👤"),
        ("logs", .arr [])]

/-- `POST /api/login` (src/app.py lines 51-61). -/
def login (st : StateA) (username password : String) : Response × StateA :=
  match filterByUsername st.users username with
  | some user =>
    if check_password_hash user.password_hash password then
      ({ status := 200, success := true,
         message := some "Logged in successfully", data := none },
       { st with session_user_id := some user.id })
    else
      ({ status := 401, success := false,
         message := some "Invalid credentials", data := none }, st)
  | none =>
      ({ status := 401, success := false,
         message := some "Invalid credentials", data := none }, st)

/-- `POST /api/signup` (src/app.py lines 63-79). -/
def signup (st : StateA) (username password : String) : Response × StateA :=
  match filterByUsername st.users username with
  | some _ =>
      ({ status := 400, success := false,
         message := some "username exist", data := none }, st)
  | none =>
    let user : User :=
      { id := st.nextId, username := username,
        password_hash := generate_password_hash password,
        game_data := defaultGameData }
    ({ status := 200, success := true,
       message := some "Account created successfully", data := none },
     { users := st.users ++ [user], nextId := st.nextId + 1,
       session_user_id := some user.id })

/-- The row update performed by `user.set_game_data(data)` followed by
`db.session.commit()` (src/app.py lines 86-89): the row whose primary key
is the session's `user_id` gets its `game_data` column replaced. -/
def setGameDataById (uid : Nat) (data : Json) (u : User) : User :=
  if u.id == uid then { u with game_data := data } else u

/-- `POST /api/save` (src/app.py lines 81-90).  When the session carries a
`user_id` that no longer resolves to a row, line 88 dereferences `None`
and Flask turns the `AttributeError` into a 500; modelled by the 500
branch. -/
def save_game (st : StateA) (data : Json) : Response × StateA :=
  match st.session_user_id with
  | none =>
      ({ status := 401, success := false,
         message := some "Not logged in", data := none }, st)
  | some uid =>
    match getById st.users uid with
    | none =>
        ({ status := 500, success := false, message := none, data := none }, st)
    | some _ =>
        ({ status := 200, success := true, message := none, data := none },
         { st with users := st.users.map (setGameDataById uid data) })

/-- `GET /api/load` (src/app.py lines 92-98).  Same `None`-dereference
caveat as `save_game` for a dangling session id. -/
def load_game (st : StateA) : Response × StateA :=
  match st.session_user_id with
  | none =>
      ({ status := 401, success := false,
         message := some "Not logged in", data := none }, st)
  | some uid =>
    match getById st.users uid with
    | none =>
        ({ status := 500, success := false, message := none, data := none }, st)
    | some user =>
        ({ status := 200, success := true, message := none,
           data := some user.game_data }, st)

/-- `POST /api/logout` (src/app.py lines 100-103). -/
def logout (st : StateA) : Response × StateA :=
  ({ status := 200, success := true, message := none, data := none },
   { st with session_user_id := none })

/-- A run of the `try` block of `/api/weather` (src/app.py lines 107-116):
either both upstream calls succeed and yield the geolocated city (already
defaulted to "London" when the field is absent) together with the parsed
integer weather code, or some exception is raised during either call or
while extracting the fields. -/
inductive UpstreamOutcome where
  | ok (city : String) (code : Int) : UpstreamOutcome
  | exnRaised : UpstreamOutcome
deriving Repr, DecidableEq

/-- Response shape of `/api/weather`: status, `success`, `type`, `city`. -/
structure WeatherResponse where
  status : Nat
  success : Bool
  type : String
  city : String
deriving Repr, DecidableEq

/-- Rainy weather codes (src/app.py line 123). -/
def rainyCodes : List Int :=
  [176, 263, 266, 293, 296, 299, 302, 305, 308, 353, 356, 359]

/-- Snowy weather codes (src/app.py line 125). -/
def snowyCodes : List Int :=
  [179, 182, 185, 227, 230, 281, 284, 311, 314, 317, 320, 323, 326, 329,
   332, 335, 338, 350, 362, 365, 368, 371, 374, 377]

/-- The code-to-category map (src/app.py lines 119-128). -/
def weatherType (code : Int) : String :=
  if code == 113 then "sunny"
  else if code ∈ [(116 : Int), 119, 122] then "cloudy"
  else if code ∈ rainyCodes then "rainy"
  else if code ∈ snowyCodes then "snowy"
  else "sunny"

/-- `GET /api/weather` (src/app.py lines 105-132), as a function of the
outcome of the two upstream HTTP calls. -/
def weather : UpstreamOutcome → WeatherResponse
  | .ok city code =>
      { status := 200, success := true, type := weatherType code, city := city }
  | .exnRaised =>
      { status := 200, success := false, type := "sunny", city := "Unknown" }

end App

namespace Server
/- ===== Variant B : src/server.py ===== -/

/-- Value stored under a username in `users.json` (src/server.py
lines 44-53): the plaintext password and the game-state document. -/
structure Account where
  password : String
  game_data : Json
deriving Repr

/-- The parsed contents of `users.json`: a Python dict mapping username
to account, modelled as an insertion-ordered association list. -/
abbrev DB := List (String × Account)

/-- The file system as seen through `DB_FILE`: `none` when `users.json`
does not exist, otherwise its parsed contents. -/
abbrev FileState := Option DB

/-- `username in db` (Python dict membership). -/
def dbContains (db : DB) (username : String) : Bool :=
  (List.find? (fun kv => kv.1 == username) db).isSome

/-- `db[username]` lookup. -/
def dbGet (db : DB) (username : String) : Option Account :=
  (List.find? (fun kv => kv.1 == username) db).map (fun kv => kv.2)

/-- `db[username] = v` for a fresh key: Python dicts append new keys in
insertion order. -/
def dbInsert (db : DB) (username : String) (a : Account) : DB :=
  db ++ [(username, a)]

/-- Entry update underlying `db[username]['game_data'] = d`. -/
def setEntryGameData (username : String) (d : Json) (kv : String × Account) :
    String × Account :=
  if kv.1 == username then (kv.1, { kv.2 with game_data := d }) else kv

/-- `db[username]['game_data'] = d` for an existing key: updating the
value of a present key keeps its position. -/
def dbSetGameData (db : DB) (username : String) (d : Json) : DB :=
  db.map (setEntryGameData username d)

/-- `load_db` (src/server.py lines 10-16): when the file is absent it is
created holding `{}` and the empty dict is returned; otherwise the file
is read and parsed.  Returns the dict and the file state afterwards. -/
def load_db : FileState → DB × FileState
  | none => ([], some [])
  | some db => (db, some db)

/-- `save_db` (src/server.py lines 18-20): rewrite the file wholesale. -/
def save_db (db : DB) : FileState := some db

/-- The default game state written at signup (src/server.py lines 46-52). -/
def defaultGameData : Json :=
  .obj [("coins", .num 0),
        ("plots", .arr []),
        ("animals", .arr []),
        ("inventory", .obj []),
        ("stats", .obj [("sessions", .num 0), ("harvests", .num 0)])]

/-- `POST /api/signup` (src/server.py lines 34-55). -/
def signup (fs : FileState) (username password : String) : Response × FileState :=
  let (db, fs1) := load_db fs
  if dbContains db username then
    ({ status := 400, success := false,
       message := some "User already exists", data := none }, fs1)
  else
    let db2 := dbInsert db username
      { password := password, game_data := defaultGameData }
    ({ status := 200, success := true,
       message := some "Account created", data := none }, save_db db2)

/-- `POST /api/login` (src/server.py lines 57-67). -/
def login (fs : FileState) (username password : String) : Response × FileState :=
  let (db, fs1) := load_db fs
  if (dbGet db username).map (fun a => a.password) == some password then
    ({ status := 200, success := true,
       message := some "Logged in", data := none }, fs1)
  else
    ({ status := 401, success := false,
       message := some "Invalid credentials", data := none }, fs1)

/-- `POST /api/get_data` (src/server.py lines 69-77). -/
def get_data (fs : FileState) (username : String) : Response × FileState :=
  let (db, fs1) := load_db fs
  match dbGet db username with
  | some a =>
      ({ status := 200, success := true, message := none,
         data := some a.game_data }, fs1)
  | none =>
      ({ status := 404, success := false, message := none, data := none }, fs1)

/-- `POST /api/save_data` (src/server.py lines 79-90). -/
def save_data (fs : FileState) (username : String) (new_game_data : Json) :
    Response × FileState :=
  let (db, fs1) := load_db fs
  if dbContains db username then
    ({ status := 200, success := true,
       message := some "Data saved", data := none },
     save_db (dbSetGameData db username new_game_data))
  else
    ({ status := 404, success := false, message := none, data := none }, fs1)

/-- The account contents of a file state: absent file = empty store. -/
def accounts : FileState → DB
  | none => []
  | some db => db

end Server

/- ===== Shared helper lemmas ===== -/

/-- `find?` commutes with a map that does not change the tested predicate. -/
theorem find?_map_invariant {α : Type} (f : α → α) (p : α → Bool)
    (hf : ∀ a, p (f a) = p a) (l : List α) :
    (l.map f).find? p = (l.find? p).map f := by
  rw [List.find?_map]
  have hpf : p ∘ f = p := funext hf
  rw [hpf]

/-- `setGameDataById` does not change `id`, `username` or `password_hash`. -/
theorem setGameDataById_frame (uid : Nat) (d : Json) (u : App.User) :
    (App.setGameDataById uid d u).id = u.id ∧
    (App.setGameDataById uid d u).username = u.username ∧
    (App.setGameDataById uid d u).password_hash = u.password_hash := by
  unfold App.setGameDataById
  split <;> exact ⟨rfl, rfl, rfl⟩

/-- `setEntryGameData` does not change the key or the password. -/
theorem setEntryGameData_frame (u : String) (d : Json) (kv : String × Server.Account) :
    (Server.setEntryGameData u d kv).1 = kv.1 ∧
    (Server.setEntryGameData u d kv).2.password = kv.2.password := by
  unfold Server.setEntryGameData
  split <;> exact ⟨rfl, rfl⟩

/-- The dict returned by `load_db` is the file's account contents. -/
theorem load_db_fst (fs : Server.FileState) :
    (Server.load_db fs).1 = Server.accounts fs := by
  cases fs <;> rfl

/-- A username that is not contained has no entry. -/
theorem dbGet_eq_none_of_not_contains (db : Server.DB) (u : String)
    (h : Server.dbContains db u = false) : Server.dbGet db u = none := by
  unfold Server.dbContains at h
  unfold Server.dbGet
  cases hf : List.find? (fun kv => kv.1 == u) db with
  | none => rfl
  | some kv => rw [hf] at h; simp at h

/-- The hash check of the modelled werkzeug pair succeeds exactly on the
originally hashed password. -/
theorem check_of_generate (p q : String) :
    App.check_password_hash (App.generate_password_hash p) q = (p == q) := by
  unfold App.check_password_hash App.generate_password_hash
  by_cases h : p = q
  · subst h; simp
  · have hne : ¬("pbkdf2:sha256$" ++ p = "pbkdf2:sha256$" ++ q) := by
      intro hc
      apply h
      have hd := congrArg String.data hc
      simp only [String.data_append] at hd
      exact String.ext (List.append_cancel_left hd)
    rw [beq_eq_false_iff_ne.mpr hne, beq_eq_false_iff_ne.mpr h]

/-- A username that is not contained has no `find?` entry. -/
theorem find?_eq_none_of_contains_false (db : Server.DB) (u : String)
    (h : Server.dbContains db u = false) :
    List.find? (fun kv => kv.1 == u) db = none := by
  unfold Server.dbContains at h
  cases hf : List.find? (fun kv => kv.1 == u) db with
  | none => rfl
  | some kv => rw [hf] at h; simp at h

/- ===== Claims ===== -/

/-- C6: for every outcome of the two upstream calls, including exceptions,
`/api/weather` responds with HTTP 200 and a `type` that is one of the four
fixed categories; upstream failure never surfaces as a non-200 status. -/
theorem C6_weather_always_200_and_enum (o : App.UpstreamOutcome) :
    (App.weather o).status = 200 ∧
    ((App.weather o).type = "sunny" ∨ (App.weather o).type = "cloudy" ∨
     (App.weather o).type = "rainy" ∨ (App.weather o).type = "snowy") := by
  cases o with
  | exnRaised => exact ⟨rfl, Or.inl rfl⟩
  | ok city code =>
    refine ⟨rfl, ?_⟩
    simp only [App.weather, App.weatherType]
    split_ifs <;> simp

/-- C9: login never mutates the account store, in both variants: the user
table (and the id counter) of Variant A and the account contents of
Variant B's file are unchanged whether verification succeeds or fails. -/
theorem C9_login_never_mutates_store (st : App.StateA) (u p : String)
    (fs : Server.FileState) (v q : String) :
    (App.login st u p).2.users = st.users ∧
    (App.login st u p).2.nextId = st.nextId ∧
    Server.accounts (Server.login fs v q).2 = Server.accounts fs := by
  refine ⟨?_, ?_, ?_⟩
  · rcases h : App.filterByUsername st.users u with _ | user
    · simp [App.login, h]
    · simp only [App.login, h]
      split <;> rfl
  · rcases h : App.filterByUsername st.users u with _ | user
    · simp [App.login, h]
    · simp only [App.login, h]
      split <;> rfl
  · cases fs with
    | none =>
        simp [Server.login, Server.load_db, Server.dbGet, Server.accounts]
    | some db =>
        simp only [Server.login, Server.load_db]
        split <;> rfl

/-- C10: with the backing file absent, `load_db` initializes it to the
empty mapping, and the endpoints behave as on an empty store: signup with
any username succeeds, login fails with 401, `get_data` and `save_data`
fail with 404. -/
theorem C10_missing_file_behaves_empty (u p : String) (d : Json) :
    (Server.load_db none).1 = [] ∧ (Server.load_db none).2 = some [] ∧
    (Server.signup none u p).1.status = 200 ∧
    (Server.signup none u p).1.success = true ∧
    (Server.login none u p).1.status = 401 ∧
    (Server.login none u p).1.success = false ∧
    (Server.get_data none u).1.status = 404 ∧
    (Server.get_data none u).1.success = false ∧
    (Server.save_data none u d).1.status = 404 ∧
    (Server.save_data none u d).1.success = false := by
  refine ⟨rfl, rfl, ?_, ?_, ?_, ?_, ?_, ?_, ?_, ?_⟩ <;>
    simp [Server.signup, Server.login, Server.get_data, Server.save_data,
          Server.load_db, Server.dbContains, Server.dbGet]

/-- C3: in Variant A, save and load without a session identity fail with
401; in Variant B, `save_data` and `get_data` for a username absent from
the store fail with 404. -/
theorem C3_unauthenticated_requests_fail
    (st : App.StateA) (d : Json) (hA : st.session_user_id = none)
    (fs : Server.FileState) (u : String) (e : Json)
    (hB : Server.dbContains (Server.accounts fs) u = false) :
    (App.save_game st d).1.status = 401 ∧
    (App.save_game st d).1.success = false ∧
    (App.load_game st).1.status = 401 ∧
    (App.load_game st).1.success = false ∧
    (Server.save_data fs u e).1.status = 404 ∧
    (Server.save_data fs u e).1.success = false ∧
    (Server.get_data fs u).1.status = 404 ∧
    (Server.get_data fs u).1.success = false := by
  refine ⟨?_, ?_, ?_, ?_, ?_, ?_, ?_, ?_⟩
  · simp [App.save_game, hA]
  · simp [App.save_game, hA]
  · simp [App.load_game, hA]
  · simp [App.load_game, hA]
  all_goals
    cases fs with
    | none =>
        simp [Server.save_data, Server.get_data, Server.load_db,
              Server.dbContains, Server.dbGet]
    | some db =>
        simp only [Server.accounts] at hB
        simp [Server.save_data, Server.get_data, Server.load_db, hB,
              dbGet_eq_none_of_not_contains db u hB]

/-- C3 witness: a concrete session-less state and an absent username. -/
theorem C3_witness :
    ((⟨[], 1, none⟩ : App.StateA).session_user_id = none ∧
     Server.dbContains (Server.accounts (some [])) "bob" = false) ∧
    (App.save_game ⟨[], 1, none⟩ (.num 1)).1.status = 401 ∧
    (Server.get_data (some []) "bob").1.status = 404 := by
  refine ⟨⟨rfl, rfl⟩, ?_, ?_⟩
  · exact (C3_unauthenticated_requests_fail ⟨[], 1, none⟩ (.num 1) rfl
      (some []) "bob" (.num 2) rfl).1
  · exact (C3_unauthenticated_requests_fail ⟨[], 1, none⟩ (.num 1) rfl
      (some []) "bob" (.num 2) rfl).2.2.2.2.2.2.1

/-- C1: for every existing account and every document `d`, save followed by
load returns exactly `d` as the `data` field of a success response, in both
variants. -/
theorem C1_save_then_load_roundtrip
    (st : App.StateA) (uid : Nat) (d : Json)
    (hsess : st.session_user_id = some uid)
    (hex : (App.getById st.users uid).isSome)
    (fs : Server.FileState) (u : String)
    (hB : Server.dbContains (Server.accounts fs) u = true) :
    (App.load_game (App.save_game st d).2).1.status = 200 ∧
    (App.load_game (App.save_game st d).2).1.success = true ∧
    (App.load_game (App.save_game st d).2).1.data = some d ∧
    (Server.get_data (Server.save_data fs u d).2 u).1.status = 200 ∧
    (Server.get_data (Server.save_data fs u d).2 u).1.success = true ∧
    (Server.get_data (Server.save_data fs u d).2 u).1.data = some d := by
  obtain ⟨u0, hu0⟩ := Option.isSome_iff_exists.mp hex
  have hu0' : st.users.find? (fun x => x.id == uid) = some u0 := hu0
  have hu0p : (u0.id == uid) = true := by simpa using List.find?_some hu0'
  have hApart :
      (App.load_game (App.save_game st d).2).1.status = 200 ∧
      (App.load_game (App.save_game st d).2).1.success = true ∧
      (App.load_game (App.save_game st d).2).1.data = some d := by
    have hsave2 : (App.save_game st d).2 =
        { st with users := st.users.map (App.setGameDataById uid d) } := by
      simp [App.save_game, hsess, hu0]
    have hfind : (st.users.map (App.setGameDataById uid d)).find?
        (fun x => x.id == uid) = some (App.setGameDataById uid d u0) := by
      rw [find?_map_invariant _ _
            (fun a => by rw [(setGameDataById_frame uid d a).1]) st.users,
          hu0', Option.map_some']
    have hset : App.setGameDataById uid d u0 = { u0 with game_data := d } := by
      simp [App.setGameDataById, hu0p]
    refine ⟨?_, ?_, ?_⟩ <;>
      simp [App.load_game, hsave2, hsess, App.getById, hfind, hset]
  have hBpart :
      (Server.get_data (Server.save_data fs u d).2 u).1.status = 200 ∧
      (Server.get_data (Server.save_data fs u d).2 u).1.success = true ∧
      (Server.get_data (Server.save_data fs u d).2 u).1.data = some d := by
    cases fs with
    | none => simp [Server.accounts, Server.dbContains] at hB
    | some db =>
      have hB' : Server.dbContains db u = true := hB
      obtain ⟨kv0, hkv0⟩ :
          ∃ kv, List.find? (fun kv => kv.1 == u) db = some kv :=
        Option.isSome_iff_exists.mp hB'
      have hkv0p : (kv0.1 == u) = true := by simpa using List.find?_some hkv0
      have hsaveB : (Server.save_data (some db) u d).2 =
          some (Server.dbSetGameData db u d) := by
        simp [Server.save_data, Server.load_db, Server.dbContains, hkv0,
              Server.save_db]
      have hfindB : List.find? (fun kv => kv.1 == u)
          (Server.dbSetGameData db u d) =
          some (Server.setEntryGameData u d kv0) := by
        unfold Server.dbSetGameData
        rw [find?_map_invariant _ _
              (fun kv => by rw [(setEntryGameData_frame u d kv).1]) db,
            hkv0, Option.map_some']
      have hsetB : Server.setEntryGameData u d kv0 =
          (kv0.1, { kv0.2 with game_data := d }) := by
        simp [Server.setEntryGameData, hkv0p]
      refine ⟨?_, ?_, ?_⟩ <;>
        simp [Server.get_data, hsaveB, Server.load_db, Server.dbGet,
              hfindB, hsetB]
  exact ⟨hApart.1, hApart.2.1, hApart.2.2, hBpart.1, hBpart.2.1, hBpart.2.2⟩

/-- C1 witness: a one-account store in each variant, saving `{coins: 5}`. -/
theorem C1_witness :
    ((⟨[⟨1, "alice", App.generate_password_hash "pw", Json.obj []⟩], 2,
        some 1⟩ : App.StateA).session_user_id = some 1 ∧
     (App.getById [⟨1, "alice", App.generate_password_hash "pw",
        Json.obj []⟩] 1).isSome ∧
     Server.dbContains
       (Server.accounts (some [("alice", ⟨"pw", Json.obj []⟩)])) "alice" = true) ∧
    (App.load_game (App.save_game
        ⟨[⟨1, "alice", App.generate_password_hash "pw", Json.obj []⟩], 2,
         some 1⟩ (.obj [("coins", .num 5)])).2).1.data =
      some (.obj [("coins", .num 5)]) ∧
    (Server.get_data (Server.save_data (some [("alice", ⟨"pw", Json.obj []⟩)])
        "alice" (.obj [("coins", .num 5)])).2 "alice").1.data =
      some (.obj [("coins", .num 5)]) := by
  refine ⟨⟨rfl, rfl, rfl⟩, ?_, ?_⟩
  · exact (C1_save_then_load_roundtrip
      ⟨[⟨1, "alice", App.generate_password_hash "pw", Json.obj []⟩], 2, some 1⟩
      1 (.obj [("coins", .num 5)]) rfl rfl
      (some [("alice", ⟨"pw", Json.obj []⟩)]) "alice" rfl).2.2.1
  · exact (C1_save_then_load_roundtrip
      ⟨[⟨1, "alice", App.generate_password_hash "pw", Json.obj []⟩], 2, some 1⟩
      1 (.obj [("coins", .num 5)]) rfl rfl
      (some [("alice", ⟨"pw", Json.obj []⟩)]) "alice" rfl).2.2.2.2.2

/-- C2: signing up an already-present username fails with 400 and leaves
the existing account's credential and game-state document unchanged, in
both variants. -/
theorem C2_duplicate_signup_rejected
    (st : App.StateA) (u p : String)
    (hA : (App.filterByUsername st.users u).isSome)
    (fs : Server.FileState) (q : String)
    (hB : Server.dbContains (Server.accounts fs) u = true) :
    (App.signup st u p).1.status = 400 ∧
    (App.signup st u p).1.success = false ∧
    (App.signup st u p).2 = st ∧
    (Server.signup fs u q).1.status = 400 ∧
    (Server.signup fs u q).1.success = false ∧
    Server.dbGet (Server.accounts (Server.signup fs u q).2) u =
      Server.dbGet (Server.accounts fs) u := by
  obtain ⟨user, huser⟩ := Option.isSome_iff_exists.mp hA
  have hApart : (App.signup st u p).1.status = 400 ∧
      (App.signup st u p).1.success = false ∧ (App.signup st u p).2 = st := by
    refine ⟨?_, ?_, ?_⟩ <;> simp [App.signup, huser]
  have hBpart : (Server.signup fs u q).1.status = 400 ∧
      (Server.signup fs u q).1.success = false ∧
      Server.dbGet (Server.accounts (Server.signup fs u q).2) u =
        Server.dbGet (Server.accounts fs) u := by
    cases fs with
    | none => simp [Server.accounts, Server.dbContains] at hB
    | some db =>
      have hB' : Server.dbContains db u = true := hB
      have hstate : (Server.signup (some db) u q).2 = some db := by
        simp [Server.signup, Server.load_db, hB']
      refine ⟨?_, ?_, ?_⟩ <;>
        simp [Server.signup, Server.load_db, hB', hstate, Server.accounts]
  exact ⟨hApart.1, hApart.2.1, hApart.2.2, hBpart.1, hBpart.2.1, hBpart.2.2⟩

/-- C2 witness: one-account stores; re-signing up "alice". -/
theorem C2_witness :
    ((App.filterByUsername
        [⟨1, "alice", App.generate_password_hash "pw", Json.obj []⟩]
        "alice").isSome ∧
     Server.dbContains
       (Server.accounts (some [("alice", ⟨"pw", Json.obj []⟩)])) "alice" = true) ∧
    (App.signup ⟨[⟨1, "alice", App.generate_password_hash "pw", Json.obj []⟩],
        2, none⟩ "alice" "newpw").1.status = 400 ∧
    (Server.signup (some [("alice", ⟨"pw", Json.obj []⟩)]) "alice"
        "newpw").1.status = 400 := by
  refine ⟨⟨rfl, rfl⟩, ?_, ?_⟩
  · exact (C2_duplicate_signup_rejected
      ⟨[⟨1, "alice", App.generate_password_hash "pw", Json.obj []⟩], 2, none⟩
      "alice" "newpw" rfl (some [("alice", ⟨"pw", Json.obj []⟩)]) "newpw"
      rfl).1
  · exact (C2_duplicate_signup_rejected
      ⟨[⟨1, "alice", App.generate_password_hash "pw", Json.obj []⟩], 2, none⟩
      "alice" "newpw" rfl (some [("alice", ⟨"pw", Json.obj []⟩)]) "newpw"
      rfl).2.2.2.1

/-- Variant B core of C5, over an explicit dict: fresh signup succeeds,
a matching login then succeeds, a mismatching one gets 401. -/
theorem server_signup_then_login (db : Server.DB) (u p q : String)
    (h : Server.dbContains db u = false) (hpq : q ≠ p) :
    (Server.signup (some db) u p).1.success = true ∧
    (Server.login (Server.signup (some db) u p).2 u p).1.status = 200 ∧
    (Server.login (Server.signup (some db) u p).2 u p).1.success = true ∧
    (Server.login (Server.signup (some db) u p).2 u q).1.status = 401 ∧
    (Server.login (Server.signup (some db) u p).2 u q).1.success = false := by
  have hsign : (Server.signup (some db) u p).2 =
      some (db ++ [(u, ⟨p, Server.defaultGameData⟩)]) := by
    simp [Server.signup, Server.load_db, h, Server.dbInsert, Server.save_db]
  have hfind : List.find? (fun kv => kv.1 == u)
      (db ++ [(u, ⟨p, Server.defaultGameData⟩)]) =
      some (u, ⟨p, Server.defaultGameData⟩) := by
    rw [List.find?_append, find?_eq_none_of_contains_false db u h]
    simp [List.find?]
  have hget : Server.dbGet (db ++ [(u, ⟨p, Server.defaultGameData⟩)]) u =
      some ⟨p, Server.defaultGameData⟩ := by
    simp [Server.dbGet, hfind]
  refine ⟨?_, ?_, ?_, ?_, ?_⟩
  · simp [Server.signup, Server.load_db, h]
  · simp [Server.login, hsign, Server.load_db, hget]
  · simp [Server.login, hsign, Server.load_db, hget]
  · simp [Server.login, hsign, Server.load_db, hget,
          beq_eq_false_iff_ne.mpr (fun hc => hpq hc.symm)]
  · simp [Server.login, hsign, Server.load_db, hget,
          beq_eq_false_iff_ne.mpr (fun hc => hpq hc.symm)]

/-- C5: for a fresh username, signup succeeds and a subsequent login with
the same password succeeds, while a login with any other password fails
with 401 — in both variants. -/
theorem C5_signup_then_login_succeeds
    (st : App.StateA) (u p q : String)
    (hA : App.filterByUsername st.users u = none)
    (hpq : q ≠ p)
    (fs : Server.FileState)
    (hB : Server.dbContains (Server.accounts fs) u = false) :
    (App.signup st u p).1.success = true ∧
    (App.login (App.signup st u p).2 u p).1.status = 200 ∧
    (App.login (App.signup st u p).2 u p).1.success = true ∧
    (App.login (App.signup st u p).2 u q).1.status = 401 ∧
    (App.login (App.signup st u p).2 u q).1.success = false ∧
    (Server.signup fs u p).1.success = true ∧
    (Server.login (Server.signup fs u p).2 u p).1.status = 200 ∧
    (Server.login (Server.signup fs u p).2 u p).1.success = true ∧
    (Server.login (Server.signup fs u p).2 u q).1.status = 401 ∧
    (Server.login (Server.signup fs u p).2 u q).1.success = false := by
  have hsignA : (App.signup st u p).2 =
      { users := st.users ++ [⟨st.nextId, u, App.generate_password_hash p,
          App.defaultGameData⟩],
        nextId := st.nextId + 1, session_user_id := some st.nextId } := by
    simp [App.signup, hA]
  have hfindA : App.filterByUsername
      (st.users ++ [⟨st.nextId, u, App.generate_password_hash p,
        App.defaultGameData⟩]) u =
      some ⟨st.nextId, u, App.generate_password_hash p, App.defaultGameData⟩ := by
    unfold App.filterByUsername at hA ⊢
    rw [List.find?_append, hA]
    simp [List.find?]
  have hApart :
      (App.signup st u p).1.success = true ∧
      (App.login (App.signup st u p).2 u p).1.status = 200 ∧
      (App.login (App.signup st u p).2 u p).1.success = true ∧
      (App.login (App.signup st u p).2 u q).1.status = 401 ∧
      (App.login (App.signup st u p).2 u q).1.success = false := by
    refine ⟨?_, ?_, ?_, ?_, ?_⟩
    · simp [App.signup, hA]
    · simp [App.login, hsignA, hfindA, check_of_generate]
    · simp [App.login, hsignA, hfindA, check_of_generate]
    · simp [App.login, hsignA, hfindA, check_of_generate,
            beq_eq_false_iff_ne.mpr (fun hc => hpq hc.symm)]
    · simp [App.login, hsignA, hfindA, check_of_generate,
            beq_eq_false_iff_ne.mpr (fun hc => hpq hc.symm)]
  have hBpart :
      (Server.signup fs u p).1.success = true ∧
      (Server.login (Server.signup fs u p).2 u p).1.status = 200 ∧
      (Server.login (Server.signup fs u p).2 u p).1.success = true ∧
      (Server.login (Server.signup fs u p).2 u q).1.status = 401 ∧
      (Server.login (Server.signup fs u p).2 u q).1.success = false := by
    cases fs with
    | none =>
      have h0 : Server.dbContains ([] : Server.DB) u = false := rfl
      exact server_signup_then_login [] u p q h0 hpq
    | some db => exact server_signup_then_login db u p q hB hpq
  exact ⟨hApart.1, hApart.2.1, hApart.2.2.1, hApart.2.2.2.1, hApart.2.2.2.2,
         hBpart.1, hBpart.2.1, hBpart.2.2.1, hBpart.2.2.2.1, hBpart.2.2.2.2⟩

/-- C5 witness: fresh username "carol" on empty stores, wrong password
"bad" against "pw". -/
theorem C5_witness :
    (App.filterByUsername ([] : List App.User) "carol" = none ∧
     ("bad" : String) ≠ "pw" ∧
     Server.dbContains (Server.accounts (some [])) "carol" = false) ∧
    (App.login (App.signup ⟨[], 1, none⟩ "carol" "pw").2 "carol"
        "pw").1.success = true ∧
    (Server.login (Server.signup (some []) "carol" "pw").2 "carol"
        "bad").1.status = 401 := by
  refine ⟨⟨rfl, by decide, rfl⟩, ?_, ?_⟩
  · exact (C5_signup_then_login_succeeds ⟨[], 1, none⟩ "carol" "pw" "bad"
      rfl (by decide) (some []) rfl).2.2.1
  · exact (C5_signup_then_login_succeeds ⟨[], 1, none⟩ "carol" "pw" "bad"
      rfl (by decide) (some []) rfl).2.2.2.2.2.2.2.2.1

/-- C7: saving replaces the addressed account's game-state document
wholesale with `d`, while every account's identifier and credential — and
every other account entirely — is unchanged, in both variants. -/
theorem C7_save_overwrites_wholesale
    (st : App.StateA) (uid : Nat) (d : Json)
    (hsess : st.session_user_id = some uid)
    (hex : (App.getById st.users uid).isSome)
    (fs : Server.FileState) (u : String)
    (hB : Server.dbContains (Server.accounts fs) u = true) :
    ((App.save_game st d).2.users.map
        (fun x => (x.id, x.username, x.password_hash)) =
      st.users.map (fun x => (x.id, x.username, x.password_hash))) ∧
    (∀ x ∈ (App.save_game st d).2.users, x.id = uid → x.game_data = d) ∧
    (∀ x ∈ st.users, x.id ≠ uid → x ∈ (App.save_game st d).2.users) ∧
    (∀ x ∈ (App.save_game st d).2.users, x.id ≠ uid → x ∈ st.users) ∧
    ((App.save_game st d).2.nextId = st.nextId) ∧
    ((Server.accounts (Server.save_data fs u d).2).map (fun kv => kv.1) =
      (Server.accounts fs).map (fun kv => kv.1)) ∧
    ((Server.dbGet (Server.accounts (Server.save_data fs u d).2) u).map
        (fun a => a.password) =
      (Server.dbGet (Server.accounts fs) u).map (fun a => a.password)) ∧
    ((Server.dbGet (Server.accounts (Server.save_data fs u d).2) u).map
        (fun a => a.game_data) = some d) ∧
    (∀ v, v ≠ u →
      Server.dbGet (Server.accounts (Server.save_data fs u d).2) v =
        Server.dbGet (Server.accounts fs) v) := by
  obtain ⟨u0, hu0⟩ := Option.isSome_iff_exists.mp hex
  have hsave2 : (App.save_game st d).2 =
      { st with users := st.users.map (App.setGameDataById uid d) } := by
    simp [App.save_game, hsess, hu0]
  refine ⟨?_, ?_, ?_, ?_, ?_, ?_⟩
  · rw [hsave2]
    show (st.users.map (App.setGameDataById uid d)).map
        (fun x => (x.id, x.username, x.password_hash)) = _
    rw [List.map_map]
    congr 1
    funext a
    obtain ⟨h1, h2, h3⟩ := setGameDataById_frame uid d a
    simp [Function.comp, h1, h2, h3]
  · rw [hsave2]
    intro x hx hid
    obtain ⟨y, hy, rfl⟩ := List.mem_map.mp hx
    have hyid : y.id = uid := by
      rw [← (setGameDataById_frame uid d y).1]; exact hid
    simp [App.setGameDataById, hyid]
  · rw [hsave2]
    intro x hx hid
    have hfix : App.setGameDataById uid d x = x := by
      simp [App.setGameDataById, hid]
    exact hfix ▸ List.mem_map_of_mem _ hx
  · rw [hsave2]
    intro x hx hid
    obtain ⟨y, hy, rfl⟩ := List.mem_map.mp hx
    have hyid : y.id ≠ uid := by
      rwa [(setGameDataById_frame uid d y).1] at hid
    have hfix : App.setGameDataById uid d y = y := by
      simp [App.setGameDataById, hyid]
    rwa [hfix]
  · rw [hsave2]
  · cases fs with
    | none => simp [Server.accounts, Server.dbContains] at hB
    | some db =>
      have hB' : Server.dbContains db u = true := hB
      obtain ⟨kv0, hkv0⟩ :
          ∃ kv, List.find? (fun kv => kv.1 == u) db = some kv :=
        Option.isSome_iff_exists.mp hB'
      have hkv0p : (kv0.1 == u) = true := by simpa using List.find?_some hkv0
      have hsaveB : (Server.save_data (some db) u d).2 =
          some (Server.dbSetGameData db u d) := by
        simp [Server.save_data, Server.load_db, Server.dbContains, hkv0,
              Server.save_db]
      have hfindB : List.find? (fun kv => kv.1 == u)
          (Server.dbSetGameData db u d) =
          some (Server.setEntryGameData u d kv0) := by
        unfold Server.dbSetGameData
        rw [find?_map_invariant _ _
              (fun kv => by rw [(setEntryGameData_frame u d kv).1]) db,
            hkv0, Option.map_some']
      have hsetB : Server.setEntryGameData u d kv0 =
          (kv0.1, { kv0.2 with game_data := d }) := by
        simp [Server.setEntryGameData, hkv0p]
      refine ⟨?_, ?_, ?_, ?_⟩
      · rw [hsaveB]
        show (Server.dbSetGameData db u d).map (fun kv => kv.1) = _
        unfold Server.dbSetGameData
        rw [List.map_map]
        congr 1
        funext kv
        simp [Function.comp, (setEntryGameData_frame u d kv).1]
      · simp [Server.dbGet, hsaveB, Server.accounts, hfindB, hsetB, hkv0]
      · simp [Server.dbGet, hsaveB, Server.accounts, hfindB, hsetB]
      · intro v hv
        have hfmv : (Server.dbSetGameData db u d).find?
            (fun kv => kv.1 == v) =
            (db.find? (fun kv => kv.1 == v)).map
              (Server.setEntryGameData u d) := by
          unfold Server.dbSetGameData
          exact find?_map_invariant _ _
            (fun kv => by rw [(setEntryGameData_frame u d kv).1]) db
        cases hfv : db.find? (fun kv => kv.1 == v) with
        | none => simp [Server.dbGet, hsaveB, Server.accounts, hfmv, hfv]
        | some kv1 =>
          have hk1 : (kv1.1 == v) = true := by simpa using List.find?_some hfv
          have hk1v : kv1.1 = v := by simpa using hk1
          have hfix : Server.setEntryGameData u d kv1 = kv1 := by
            have : kv1.1 ≠ u := by rw [hk1v]; exact hv
            simp [Server.setEntryGameData, this]
          simp [Server.dbGet, hsaveB, Server.accounts, hfmv, hfv, hfix]

/-- C7 witness: two-account stores, saving `{coins: 9}` for "alice". -/
theorem C7_witness :
    ((⟨[⟨1, "alice", App.generate_password_hash "pw", Json.obj []⟩,
        ⟨2, "bob", App.generate_password_hash "pw2", Json.num 7⟩], 3,
        some 1⟩ : App.StateA).session_user_id = some 1 ∧
     (App.getById [⟨1, "alice", App.generate_password_hash "pw", Json.obj []⟩,
        ⟨2, "bob", App.generate_password_hash "pw2", Json.num 7⟩] 1).isSome ∧
     Server.dbContains (Server.accounts (some
        [("alice", ⟨"pw", Json.obj []⟩), ("bob", ⟨"pw2", Json.num 7⟩)]))
        "alice" = true) ∧
    (∀ x ∈ (App.save_game
        ⟨[⟨1, "alice", App.generate_password_hash "pw", Json.obj []⟩,
          ⟨2, "bob", App.generate_password_hash "pw2", Json.num 7⟩], 3,
          some 1⟩ (.obj [("coins", .num 9)])).2.users,
        x.id = 1 → x.game_data = .obj [("coins", .num 9)]) ∧
    (∀ v, v ≠ "alice" →
      Server.dbGet (Server.accounts (Server.save_data (some
          [("alice", ⟨"pw", Json.obj []⟩), ("bob", ⟨"pw2", Json.num 7⟩)])
          "alice" (.obj [("coins", .num 9)])).2) v =
        Server.dbGet (Server.accounts (some
          [("alice", ⟨"pw", Json.obj []⟩), ("bob", ⟨"pw2", Json.num 7⟩)])) v) := by
  refine ⟨⟨rfl, rfl, rfl⟩, ?_, ?_⟩
  · exact (C7_save_overwrites_wholesale
      ⟨[⟨1, "alice", App.generate_password_hash "pw", Json.obj []⟩,
        ⟨2, "bob", App.generate_password_hash "pw2", Json.num 7⟩], 3, some 1⟩
      1 (.obj [("coins", .num 9)]) rfl rfl
      (some [("alice", ⟨"pw", Json.obj []⟩), ("bob", ⟨"pw2", Json.num 7⟩)])
      "alice" rfl).2.1
  · exact (C7_save_overwrites_wholesale
      ⟨[⟨1, "alice", App.generate_password_hash "pw", Json.obj []⟩,
        ⟨2, "bob", App.generate_password_hash "pw2", Json.num 7⟩], 3, some 1⟩
      1 (.obj [("coins", .num 9)]) rfl rfl
      (some [("alice", ⟨"pw", Json.obj []⟩), ("bob", ⟨"pw2", Json.num 7⟩)])
      "alice" rfl).2.2.2.2.2.2.2.2

/-- C8: in Variant A a successful signup sets the session identity to the
new account's id, so save and load succeed immediately afterwards without
an intervening login. -/
theorem C8_signup_sets_session (st : App.StateA) (u p : String) (d : Json)
    (hfresh : App.filterByUsername st.users u = none) :
    (App.signup st u p).1.success = true ∧
    (App.signup st u p).2.session_user_id = some st.nextId ∧
    (App.save_game (App.signup st u p).2 d).1.status = 200 ∧
    (App.save_game (App.signup st u p).2 d).1.success = true ∧
    (App.load_game (App.signup st u p).2).1.status = 200 ∧
    (App.load_game (App.signup st u p).2).1.success = true := by
  have hsignA : (App.signup st u p).2 =
      { users := st.users ++ [⟨st.nextId, u, App.generate_password_hash p,
          App.defaultGameData⟩],
        nextId := st.nextId + 1, session_user_id := some st.nextId } := by
    simp [App.signup, hfresh]
  obtain ⟨w, hw⟩ : ∃ w, App.getById (st.users ++
      [⟨st.nextId, u, App.generate_password_hash p, App.defaultGameData⟩])
      st.nextId = some w := by
    unfold App.getById
    rw [List.find?_append]
    cases h1 : st.users.find? (fun x => x.id == st.nextId) with
    | some w => exact ⟨w, by simp [h1, Option.or]⟩
    | none =>
        exact ⟨⟨st.nextId, u, App.generate_password_hash p,
          App.defaultGameData⟩, by simp [h1, Option.or, List.find?]⟩
  refine ⟨?_, ?_, ?_, ?_, ?_, ?_⟩
  · simp [App.signup, hfresh]
  · rw [hsignA]
  · simp [App.save_game, hsignA, hw]
  · simp [App.save_game, hsignA, hw]
  · simp [App.load_game, hsignA, hw]
  · simp [App.load_game, hsignA, hw]

/-- C8 witness: signing up "dave" on the empty state, then saving. -/
theorem C8_witness :
    (App.filterByUsername ([] : List App.User) "dave" = none) ∧
    (App.signup ⟨[], 1, none⟩ "dave" "pw").2.session_user_id = some 1 ∧
    (App.save_game (App.signup ⟨[], 1, none⟩ "dave" "pw").2
        (.num 4)).1.status = 200 := by
  refine ⟨rfl, ?_, ?_⟩
  · exact (C8_signup_sets_session ⟨[], 1, none⟩ "dave" "pw" (.num 4)
      rfl).2.1
  · exact (C8_signup_sets_session ⟨[], 1, none⟩ "dave" "pw" (.num 4)
      rfl).2.2.1

/-- C4 counterexample: weather code 999 is in none of the inclusion
tables, and the upstream calls succeeded with geolocated city "Paris";
the response's category is the default "sunny" but its city is "Paris",
not "Unknown" as the claim states. -/
theorem C4_counterexample :
    (999 : Int) ≠ 113 ∧ (999 : Int) ∉ [(116 : Int), 119, 122] ∧
    (999 : Int) ∉ App.rainyCodes ∧ (999 : Int) ∉ App.snowyCodes ∧
    (App.weather (.ok "Paris" 999)).type = "sunny" ∧
    (App.weather (.ok "Paris" 999)).city = "Paris" ∧
    (App.weather (.ok "Paris" 999)).city ≠ "Unknown" := by
  refine ⟨by decide, by decide, by decide, by decide, by decide, rfl,
    by decide⟩

/-- C4 (amended): for every unlisted integer weather code the response
carries the default category "sunny" (with the geolocated city), and
whenever either upstream call raises an exception the response carries
category "sunny" and city "Unknown". -/
theorem C4_unlisted_code_defaults_sunny (city : String) (code : Int)
    (h1 : code ≠ 113) (h2 : code ∉ [(116 : Int), 119, 122])
    (h3 : code ∉ App.rainyCodes) (h4 : code ∉ App.snowyCodes) :
    (App.weather (.ok city code)).type = "sunny" ∧
    (App.weather (.ok city code)).city = city ∧
    (App.weather .exnRaised).type = "sunny" ∧
    (App.weather .exnRaised).city = "Unknown" := by
  refine ⟨?_, rfl, rfl, rfl⟩
  show App.weatherType code = "sunny"
  unfold App.weatherType
  rw [if_neg (by simpa using h1), if_neg h2, if_neg h3, if_neg h4]

/-- C4 witness: unlisted code 1000 with geolocated city "Berlin". -/
theorem C4_witness :
    ((1000 : Int) ≠ 113 ∧ (1000 : Int) ∉ [(116 : Int), 119, 122] ∧
     (1000 : Int) ∉ App.rainyCodes ∧ (1000 : Int) ∉ App.snowyCodes) ∧
    (App.weather (.ok "Berlin" 1000)).type = "sunny" ∧
    (App.weather (.ok "Berlin" 1000)).city = "Berlin" ∧
    (App.weather .exnRaised).type = "sunny" ∧
    (App.weather .exnRaised).city = "Unknown" :=
  ⟨⟨by decide, by decide, by decide, by decide⟩,
   C4_unlisted_code_defaults_sunny "Berlin" 1000 (by decide) (by decide)
     (by decide) (by decide)⟩
